import Mathlib

/-!
Verification of the DockerManager update/supervision engine.

The definitions below are a shallow embedding of the TypeScript sources
(`src/monitor.ts` and `src/docker.ts`): pure data flow is translated to Lean
functions, external effects (HTTP requests, the filesystem, subprocess
execution, logging, container restarts) are represented by explicit
environment records describing their outcomes and by an `Action` trace listing
the effects the code performs, in order.
-/

set_option maxRecDepth 20000

namespace DockerManager

/-- One profile entry of `monitors.yml`, as loaded by the `Monitor`
constructor.  `AssetRegex` models the truthiness of
`name.match(monitor.AssetRegex)`: the regular-expression engine is external,
so the field holds the induced predicate on asset names. -/
structure MonitorDetails where
  Profile : String
  Type' : String
  Owner : String
  Repo : String
  AllowPrerelease : Bool
  AssetRegex : String → Bool
  AutoRestart : Bool
  DestinationDirectory : Option String
  RemoveParentFolder : Bool
  CopyFiles : List String
  MonitorContainers : List String

/-- A JavaScript `Record` / plain object used as a string-keyed map, with
last-write-wins assignment semantics. -/
def recSet {α : Type} : List (String × α) → String → α → List (String × α)
  | [], k, v => [(k, v)]
  | (k', v') :: rest, k, v =>
      if k' = k then (k, v) :: rest else (k', v') :: recSet rest k v

/-- Property lookup on a JavaScript record: `obj[k]`, `none` when absent. -/
def recGet {α : Type} : List (String × α) → String → Option α
  | [], _ => none
  | (k', v) :: rest, k => if k' = k then some v else recGet rest k

/-- The JavaScript `k in obj` test. -/
def recHas {α : Type} (r : List (String × α)) (k : String) : Bool :=
  (recGet r k).isSome

/-- The observable effects performed by the monitor code, in program order. -/
inductive Action where
  | mkdirBuilds
  | rmTemp
  | mkTemp
  | download (url : String)
  | rmZip
  | renameToBuild (fp : String)
  | removeCurrent
  | copyBuildToCurrent (fp : String)
  | copyAux (file : String)
  | setCache (profile fp : String)
  | syncCopy (file : String)
  | restart (profile : String)
  | logError
  | logInfo
  deriving DecidableEq

/-- Modification times of the auxiliary files and of their copies under
`current/`; the source never actually reads them (see `syncMonitorFiles`). -/
structure FsTimes where
  sourceMtime : String → Int
  destMtime : String → Int

/-- In the source, `syncMonitorFiles` constructs two fresh `Date` objects,
hands them to `fs.utimesSync` (which SETS the timestamps of the two files
rather than reading them) and then compares the two `Date` objects with `!=`.
In JavaScript, `!=` on two distinct objects is reference inequality and is
therefore always `true`. -/
def jsFreshDateObjectsDiffer : Bool := true

/-- `Monitor.syncMonitorFiles`: for each configured file, the guard
`sourceDate != destinationDate` (see `jsFreshDateObjectsDiffer`) decides
whether `fs.cpSync` runs.  The real modification times `t` are never
consulted by the source, which is why they are unused here. -/
def syncMonitorFiles (m : MonitorDetails) (_t : FsTimes) : List Action :=
  m.CopyFiles.foldl (fun acc file =>
    acc ++ (if jsFreshDateObjectsDiffer then [Action.syncCopy file] else [])) []

/-- `Monitor.checkMonitorStatus`: counts the monitored containers that are
reported up (`x in upStatuses && upStatuses[x] === true`) and restarts the
profile when the count falls short. -/
def checkMonitorStatus (m : MonitorDetails) (up : List (String × Bool)) :
    List Action :=
  if m.MonitorContainers.length = 0 then []
  else
    let numRunning :=
      m.MonitorContainers.countP (fun x => recHas up x && (recGet up x == some true))
    if numRunning ≠ m.MonitorContainers.length then [Action.restart m.Profile]
    else []

/-- The per-file `fs.cpSync` loop of `downloadAndExtract` (promotion step 6):
copies run in order until one throws; the boolean reports whether the whole
list succeeded. -/
def copyAuxRun : List String → (String → Bool) → List Action × Bool
  | [], _ => ([], true)
  | f :: rest, ok =>
      if ok f then
        let r := copyAuxRun rest ok
        (Action.copyAux f :: r.1, r.2)
      else ([], false)

/-- Outcomes of the external steps of `Monitor.downloadAndExtract`: which
directories exist on entry, and whether each fallible effect succeeds. -/
structure FetchEnv where
  buildsExists : Bool
  buildExists : Bool
  tempExists : Bool
  currentExists : Bool
  requestOk : Bool
  httpStatus : Nat
  streamOk : Bool
  extractOk : Bool
  renameOk : Bool
  removeCurrentOk : Bool
  copyCurrentOk : Bool
  copyFileOk : String → Bool

/-- `Monitor.downloadAndExtract`, returning the updated version cache and the
trace of performed effects.  A failing step stops execution at the point the
source would throw or silently drop the promise chain; in particular the
cache assignment `this.cache[monitor.Profile] = cacheValue` is only reached
where the source reaches it. -/
def downloadAndExtract (m : MonitorDetails) (url : String) (cacheValue : String)
    (isInit : Bool) (autostart : List String)
    (cache : List (String × String)) (env : FetchEnv) :
    List (String × String) × List Action :=
  let a0 : List Action := if env.buildsExists then [] else [Action.mkdirBuilds]
  if env.buildExists then
    (recSet cache m.Profile cacheValue,
      a0 ++ [Action.setCache m.Profile cacheValue] ++
        (if m.AutoRestart || (isInit && autostart.contains m.Profile) then
          [Action.restart m.Profile] else []))
  else
    let a1 := a0 ++ (if env.tempExists then [Action.rmTemp] else []) ++
      [Action.mkTemp, Action.download url]
    if !env.requestOk then (cache, a1 ++ [Action.logError])
    else if env.httpStatus ≠ 200 then
      (cache, a1 ++
        (if isInit && autostart.contains m.Profile then [Action.restart m.Profile]
         else []))
    else if !env.streamOk then (cache, a1)
    else if !env.extractOk then (cache, a1)
    else
      let a2 := a1 ++ [Action.rmZip]
      if !env.renameOk then (cache, a2)
      else
        let a3 := a2 ++ [Action.renameToBuild cacheValue]
        if env.currentExists && !env.removeCurrentOk then (cache, a3)
        else
          let a4 := a3 ++ (if env.currentExists then [Action.removeCurrent] else [])
          if !env.copyCurrentOk then (cache, a4)
          else
            let a5 := a4 ++ [Action.copyBuildToCurrent cacheValue]
            let aux := copyAuxRun m.CopyFiles env.copyFileOk
            if !aux.2 then (cache, a5 ++ aux.1)
            else
              (recSet cache m.Profile cacheValue,
                a5 ++ aux.1 ++ [Action.setCache m.Profile cacheValue] ++
                  (if m.AutoRestart then [Action.restart m.Profile]
                   else if isInit && autostart.contains m.Profile then
                     [Action.restart m.Profile]
                   else []))

/-- All the fallible steps of a staged `downloadAndExtract` run succeed. -/
def fetchAllOk (m : MonitorDetails) (env : FetchEnv) : Bool :=
  env.requestOk && (env.httpStatus == 200) && env.streamOk && env.extractOk &&
  env.renameOk && (!env.currentExists || env.removeCurrentOk) &&
  env.copyCurrentOk && m.CopyFiles.all env.copyFileOk

/-- One downloadable asset of an upstream release. -/
structure Asset where
  name : String
  browser_download_url : String
  deriving DecidableEq

/-- One entry of the upstream release feed. -/
structure Release where
  prerelease : Bool
  assets : List Asset
  deriving DecidableEq

/-- The asset pipeline of `Monitor.runReleaseMonitor`:
`response.data.filter(...).map(...).reduce(concat, [])`. -/
def releaseResults (m : MonitorDetails) (releases : List Release) : List Asset :=
  ((releases.filter (fun x => !x.prerelease || m.AllowPrerelease)).map
      (fun x => x.assets.filter (fun y => m.AssetRegex y.name))).foldl
    (fun a b => a ++ b) []

/-- The asset pipeline as the specification words it: flatten the assets of
the admissible releases in feed order, then keep the matching ones. -/
def specSurvivingAssets (m : MonitorDetails) (releases : List Release) :
    List Asset :=
  ((releases.filter (fun x => !x.prerelease || m.AllowPrerelease)).map
      Release.assets).flatten.filter (fun y => m.AssetRegex y.name)

/-- `results[0].name.replace(/\.[^/.]+$/, "")`: drop a trailing dot segment
that is nonempty and contains neither a dot nor a slash. -/
def stripExtChars (s : List Char) : List Char :=
  let rev := s.reverse
  let seg := rev.takeWhile (fun c => c ≠ '.' && c ≠ '/')
  match rev.drop seg.length with
  | '.' :: rest => if seg.isEmpty then s else rest.reverse
  | _ => s

/-- Extension stripping on `String`. -/
def stripExt (s : String) : String := String.mk (stripExtChars s.data)

/-- The version-resolution result of `runReleaseMonitor`: the fingerprint
(`name`) and download URL taken from `results[0]`.  On an empty result list
the source evaluates `results[0].name`, which throws; this is `none`. -/
def resolveRelease (m : MonitorDetails) (releases : List Release) :
    Option (String × String) :=
  match releaseResults m releases with
  | [] => none
  | a :: _ => some (stripExt a.name, a.browser_download_url)

/-- In JavaScript an array is an object and objects are always truthy, so the
`if (!results)` guard of `runReleaseMonitor` can never fire, even on `[]`. -/
def jsArrayFalsy {α : Type} (_xs : List α) : Bool := false

/-- Outcome of the `axios.get` on the repository tree endpoint. -/
structure RepoEnv where
  requestOk : Bool
  sha : String

/-- Outcome of the `axios.get` on the releases endpoint. -/
structure ReleaseEnv where
  requestOk : Bool
  status : Nat
  releases : List Release

/-- The fixed branch-archive URL of `runRepoMonitor`. -/
def repoZipUrl (m : MonitorDetails) : String :=
  "https://github.com/" ++ m.Owner ++ "/" ++ m.Repo ++
    "/archive/refs/heads/main.zip"

/-- `Monitor.runRepoMonitor`, given the shared liveness snapshot `up` and the
outcomes of the external requests. -/
def runRepoMonitor (m : MonitorDetails) (isInit : Bool) (autostart : List String)
    (up : List (String × Bool)) (cache : List (String × String))
    (renv : RepoEnv) (fenv : FetchEnv) (t : FsTimes) :
    List (String × String) × List Action :=
  if !renv.requestOk then (cache, [Action.logError])
  else if recHas cache m.Profile && (recGet cache m.Profile == some renv.sha) then
    (cache, syncMonitorFiles m t ++ checkMonitorStatus m up)
  else
    match m.DestinationDirectory with
    | some _ => downloadAndExtract m (repoZipUrl m) renv.sha isInit autostart cache fenv
    | none =>
      if m.AutoRestart then (cache, [Action.restart m.Profile])
      else if isInit && autostart.contains m.Profile then
        (cache, [Action.restart m.Profile])
      else (cache, checkMonitorStatus m up)

/-- `Monitor.runReleaseMonitor`.  The dead `if (!results)` guard is kept (see
`jsArrayFalsy`); on an empty asset list the `results[0].name` access throws a
TypeError inside the promise chain, which the trailing `.catch` logs. -/
def runReleaseMonitor (m : MonitorDetails) (isInit : Bool)
    (autostart : List String) (up : List (String × Bool))
    (cache : List (String × String)) (renv : ReleaseEnv) (fenv : FetchEnv)
    (t : FsTimes) : List (String × String) × List Action :=
  if !renv.requestOk then (cache, [Action.logError])
  else if renv.status ≠ 200 then
    (cache,
      if isInit && autostart.contains m.Profile then [Action.restart m.Profile]
      else [])
  else
    let results := releaseResults m renv.releases
    if jsArrayFalsy results then (cache, [Action.logInfo])
    else
      match results with
      | [] => (cache, [Action.logError])
      | a :: _ =>
        let name := stripExt a.name
        let durl := a.browser_download_url
        if recHas cache m.Profile && (recGet cache m.Profile == some name) then
          (cache, syncMonitorFiles m t ++ checkMonitorStatus m up)
        else
          match m.DestinationDirectory with
          | some _ => downloadAndExtract m durl name isInit autostart cache fenv
          | none =>
            if m.AutoRestart || (isInit && autostart.contains m.Profile) then
              (cache, [Action.restart m.Profile])
            else (cache, checkMonitorStatus m up)

/-- Per-profile bundle of external outcomes for one monitor cycle. -/
structure ProfileEnv where
  repo : RepoEnv
  rel : ReleaseEnv
  fetch : FetchEnv
  times : FsTimes

/-- `Monitor.runMonitor`: one cycle.  `statusOk` and `up` are the pair the
single up-front `GetStatuses` call hands to its callback; on failure the
callback returns before touching any profile. -/
def runMonitor (monitors : List MonitorDetails) (isInit : Bool)
    (autostart : List String) (statusOk : Bool) (up : List (String × Bool))
    (cache : List (String × String)) (env : String → ProfileEnv) :
    List (String × String) × List Action :=
  if !statusOk then (cache, [])
  else
    monitors.foldl (fun acc m =>
      let e := env m.Profile
      let r :=
        if m.Type' = "repo" then
          runRepoMonitor m isInit autostart up acc.1 e.repo e.fetch e.times
        else if m.Type' = "release" then
          runReleaseMonitor m isInit autostart up acc.1 e.rel e.fetch e.times
        else (acc.1, [])
      (r.1, acc.2 ++ r.2)) (cache, [])

/-- What one `Docker.GetStatuses` call hands its callback: the success flag
and the parsed snapshot. -/
structure StatusResult where
  success : Bool
  statuses : List (String × Bool)
  deriving DecidableEq

/-- `Docker.GetContainerStatus`, as the pair `(success, isUp)` passed to its
callback: a failed snapshot or an unknown container yields `(false, false)`. -/
def GetContainerStatus (r : StatusResult) (name : String) : Bool × Bool :=
  if !r.success then (false, false)
  else
    match recGet r.statuses name with
    | none => (false, false)
    | some b => (true, b)

/-- Result of a `WaitForStatus` run: the boolean passed to the callback, the
number of `GetContainerStatus` polls performed, and the total milliseconds
spent in the `setTimeout(..., 5000)` sleeps. -/
structure WaitResult where
  result : Bool
  polls : Nat
  sleepMs : Nat
  deriving DecidableEq

/-- `Docker.WaitForStatus`, unrolled over a sequence of snapshot outcomes
(`source i` is what the `i`-th `GetStatuses` call produces).  The recursion
consumes one attempt per non-matching poll, sleeping 5000 ms before retrying;
note that the source compares only `isUp` with `desiredStatus` and ignores
the `success` flag of the poll. -/
def WaitForStatusAux (source : Nat → StatusResult) (name : String)
    (desired : Bool) : Nat → Nat → WaitResult
  | 0, _ => ⟨false, 0, 0⟩
  | attempts + 1, i =>
    let q := GetContainerStatus (source i) name
    if q.2 = desired then ⟨true, 1, 0⟩
    else
      let r := WaitForStatusAux source name desired attempts (i + 1)
      ⟨r.result, r.polls + 1, r.sleepMs + 5000⟩

/-- A `WaitForStatus(containerName, desiredStatus, attempts, callback)` call,
polling the snapshot sequence from its beginning. -/
def WaitForStatusRun (source : Nat → StatusResult) (name : String)
    (desired : Bool) (attempts : Nat) : WaitResult :=
  WaitForStatusAux source name desired attempts 0

/-- JavaScript `str.split(sep)` for a one-character separator: always returns
at least one (possibly empty) piece. -/
def jsSplit (sep : Char) : List Char → List (List Char)
  | [] => [[]]
  | c :: rest =>
    let r := jsSplit sep rest
    if c = sep then [] :: r
    else
      match r with
      | h :: t => (c :: h) :: t
      | [] => [[c]]

/-- JavaScript `str.indexOf(pat)`: index of the first occurrence, `-1` when
absent. -/
def jsIndexOf (s pat : List Char) : Int :=
  match (List.range (s.length + 1)).find? (fun i => pat.isPrefixOf (s.drop i)) with
  | some i => (i : Int)
  | none => -1

/-- Clamp a JavaScript index argument into `[0, len]`. -/
def jsClamp (n : Int) (len : Nat) : Nat := min n.toNat len

/-- JavaScript `str.substring(a, b)`: both arguments are clamped into
`[0, length]` and swapped when out of order. -/
def jsSubstring (s : List Char) (a b : Int) : List Char :=
  let x := jsClamp a s.length
  let y := jsClamp b s.length
  (s.take (max x y)).drop (min x y)

/-- Whitespace recognized by the trims appearing in the parsed output. -/
def jsIsSpace (c : Char) : Bool :=
  c = ' ' || c = '\t' || c = '\r' || c = '\n'

/-- JavaScript `str.trim()`. -/
def jsTrim (s : List Char) : List Char :=
  ((s.dropWhile jsIsSpace).reverse.dropWhile jsIsSpace).reverse

/-- JavaScript `str.startsWith(pat)`. -/
def jsStartsWith (s pat : List Char) : Bool := pat.isPrefixOf s

/-- `lines[0]` of the split `docker compose ps -a` output (the header row). -/
def hdr (stdout : List Char) : List Char := (jsSplit '\n' stdout).headD []

/-- `lines[0].indexOf("IMAGE")` (`nameEnd` in the source). -/
def hdrNameEnd (h : List Char) : Int := jsIndexOf h "IMAGE".data

/-- `lines[0].indexOf("COMMND")` (`imageEnd`): the source looks for the
misspelled token `COMMND`, so on a real header this is `-1`. -/
def hdrImageEnd (h : List Char) : Int := jsIndexOf h "COMMND".data

/-- `lines[0].indexOf("SERVICE")`. -/
def hdrServiceStart (h : List Char) : Int := jsIndexOf h "SERVICE".data

/-- `lines[0].indexOf("CREATED")`. -/
def hdrServiceEnd (h : List Char) : Int := jsIndexOf h "CREATED".data

/-- `lines[0].indexOf("STATUS")`. -/
def hdrStatusStart (h : List Char) : Int := jsIndexOf h "STATUS".data

/-- `lines[0].indexOf("PORTS")`. -/
def hdrStatusEnd (h : List Char) : Int := jsIndexOf h "PORTS".data

/-- The NAME field of a row: `line.substring(0, nameEnd).trim()`. -/
def rowName (h line : List Char) : String :=
  String.mk (jsTrim (jsSubstring line 0 (hdrNameEnd h)))

/-- The IMAGE field of a row: `line.substring(nameEnd, imageEnd).trim()`. -/
def rowImage (h line : List Char) : String :=
  String.mk (jsTrim (jsSubstring line (hdrNameEnd h) (hdrImageEnd h)))

/-- The SERVICE field of a row:
`line.substring(serviceStart, serviceEnd).trim()`. -/
def rowService (h line : List Char) : String :=
  String.mk (jsTrim (jsSubstring line (hdrServiceStart h) (hdrServiceEnd h)))

/-- The raw STATUS column of a row: `line.substring(statusStart, statusEnd)`
(not trimmed in the source). -/
def rowStatus (h line : List Char) : List Char :=
  jsSubstring line (hdrStatusStart h) (hdrStatusEnd h)

/-- `status.startsWith("Up")` for a row. -/
def rowUp (h line : List Char) : Bool := jsStartsWith (rowStatus h line) "Up".data

/-- The loop body of `GetStatuses`: a row with an empty SERVICE field is
skipped (`continue`); otherwise `results[service]`, `results[name]` and
`results[image]` are all assigned the up flag, in that order. -/
def insertRow (h : List Char) (acc : List (String × Bool)) (line : List Char) :
    List (String × Bool) :=
  if rowService h line = "" then acc
  else
    recSet (recSet (recSet acc (rowService h line) (rowUp h line))
        (rowName h line) (rowUp h line))
      (rowImage h line) (rowUp h line)

/-- The trailing loop of `GetStatuses`: every statically known service that
is not yet a key of `results` is inserted as down. -/
def applyDefaults (services : List String) (acc : List (String × Bool)) :
    List (String × Bool) :=
  services.foldl (fun a s => if recHas a s then a else recSet a s false) acc

/-- The parsing part of `Docker.GetStatuses` on a successful
`docker compose ps -a` run: split into lines, locate the header columns,
fold the rows, then default the missing known services to down. -/
def GetStatusesParse (stdout : List Char) (services : List String) :
    List (String × Bool) :=
  let lines := jsSplit '\n' stdout
  let h := lines.headD []
  applyDefaults services (lines.tail.foldl (insertRow h) [])

/-- A baseline profile used to build the concrete test profiles below. -/
def baseMonitor : MonitorDetails :=
  ⟨"p", "repo", "o", "r", false, fun _ => true, false, none, false, [], []⟩

/-- A fetch environment in which every step succeeds and nothing pre-exists
except the `builds/` parent. -/
def dummyFetchEnv : FetchEnv :=
  ⟨true, false, false, false, true, 200, true, true, true, true, true,
    fun _ => true⟩

/-- Filesystem timestamps with every file at time 0. -/
def equalTimes : FsTimes := ⟨fun _ => 0, fun _ => 0⟩

/-- Profile for the C1 scenario: destination path and one auxiliary file. -/
def c1m : MonitorDetails :=
  { baseMonitor with
    Profile := "p1", DestinationDirectory := some "/d", CopyFiles := ["aux.yml"] }

/-- Fetch environment for C1: `builds/<fingerprint>` already exists. -/
def c1env : FetchEnv := { dummyFetchEnv with buildsExists := true, buildExists := true }

/-- Profile for the C2 scenario. -/
def c2m : MonitorDetails :=
  { baseMonitor with Profile := "p2", DestinationDirectory := some "/d" }

/-- Fetch environment for the C2 counterexample: the build directory already
exists, so the fetch-skip branch runs. -/
def c2env : FetchEnv := { dummyFetchEnv with buildsExists := true, buildExists := true }

/-- Fetch environment for the C2 witness: a fresh fingerprint whose archive
extraction fails. -/
def c2wEnv : FetchEnv := { dummyFetchEnv with extractOk := false }

/-- Release-source profile matching the example of the specification:
prereleases disallowed, filter pattern accepting names ending in `.zip`. -/
def c4m : MonitorDetails :=
  { baseMonitor with
    Profile := "app", Type' := "release",
    AssetRegex := fun s => ".zip".data.isSuffixOf s.data }

/-- The release feed of the specification example. -/
def c4releases : List Release :=
  [⟨true, [⟨"a.zip", "u1"⟩]⟩, ⟨false, [⟨"b.zip", "u2"⟩, ⟨"c.txt", "u3"⟩]⟩]

/-- A snapshot source whose status query always fails. -/
def failSource : Nat → StatusResult := fun _ => ⟨false, []⟩

/-- A snapshot source that always answers successfully with `web` down. -/
def neverUpSource : Nat → StatusResult := fun _ => ⟨true, [("web", false)]⟩

/-- Profile for the C8 scenario: one configured auxiliary file. -/
def c8m : MonitorDetails :=
  { baseMonitor with
    Profile := "p8", DestinationDirectory := some "/d", CopyFiles := ["config.yml"] }

/-- Profile for the C9 scenario: auxiliary file plus two monitored
containers. -/
def c9m : MonitorDetails :=
  { baseMonitor with
    Profile := "p9", CopyFiles := ["cfg"], MonitorContainers := ["web", "db"] }

/-- Snapshot for C9: `web` is up, `db` is absent (hence not up). -/
def c9up : List (String × Bool) := [("web", true)]

/-- Version cache for C9, already holding the resolved fingerprint. -/
def c9cache : List (String × String) := [("p9", "sha1")]

/-- Repository-request outcome for C9: success, fingerprint `sha1`. -/
def c9renv : RepoEnv := ⟨true, "sha1"⟩

/-- Release-source profile for the C7 witness. -/
def c7m : MonitorDetails :=
  { baseMonitor with
    Profile := "p7", Type' := "release", DestinationDirectory := some "/d",
    AssetRegex := fun _ => false }

/-- Release-request outcome for C7: a successful request with an empty
release list. -/
def c7renv : ReleaseEnv := ⟨true, 200, []⟩

/-- Header row of the sample status table from the specification. -/
def sampleHeader : String := "NAME IMAGE SERVICE CREATED STATUS PORTS"

/-- Sample row: service `alpha`, status `Up 3h`. -/
def sampleRow1 : String := "a    i     alpha   c       Up 3h  p"

/-- Sample row: service `beta`, status `Exited`. -/
def sampleRow2 : String := "b    j     beta    c       Exited p"

/-- The full sample `docker compose ps -a` output. -/
def sampleOut : List Char :=
  (sampleHeader ++ "\n" ++ sampleRow1 ++ "\n" ++ sampleRow2).data

/-- The statically known services for the sample: `gamma` never appears in
the table. -/
def sampleServices : List String := ["alpha", "beta", "gamma"]

/-- Row whose SERVICE field is `alpha` with status `Up 3h`. -/
def clashRow1 : String := "a    i     alpha   c       Up 3h  p"

/-- A later row whose NAME field is `alpha` (service `beta`, status
`Exited`): `GetStatuses` also assigns `results[name]`, so this row
overwrites the `alpha` entry written by the previous row. -/
def clashRow2 : String := "alphai     beta    c       Exited p"

/-- A status table in which a later row's NAME column equals an earlier
row's SERVICE column. -/
def clashOut : List Char :=
  (sampleHeader ++ "\n" ++ clashRow1 ++ "\n" ++ clashRow2).data

/-- The statically known services of the clashing table. -/
def clashServices : List String := ["alpha", "beta"]

/-- Actions belonging to the fetch/staging/promotion machinery: the network
fetch, the staging move, and the steps that rebuild `current/`. -/
def isPromoteStep : Action → Bool
  | .mkdirBuilds => false
  | .rmTemp => false
  | .mkTemp => false
  | .download _ => true
  | .rmZip => false
  | .renameToBuild _ => true
  | .removeCurrent => true
  | .copyBuildToCurrent _ => true
  | .copyAux _ => true
  | .setCache _ _ => false
  | .syncCopy _ => false
  | .restart _ => false
  | .logError => false
  | .logInfo => false

/-- Actions that write the Version Cache. -/
def isCacheWrite : Action → Bool
  | .mkdirBuilds => false
  | .rmTemp => false
  | .mkTemp => false
  | .download _ => false
  | .rmZip => false
  | .renameToBuild _ => false
  | .removeCurrent => false
  | .copyBuildToCurrent _ => false
  | .copyAux _ => false
  | .setCache _ _ => true
  | .syncCopy _ => false
  | .restart _ => false
  | .logError => false
  | .logInfo => false

/-! ## Helper lemmas -/

theorem recGet_recSet_self {α : Type} (r : List (String × α)) (k : String) (v : α) :
    recGet (recSet r k v) k = some v := by
  induction r with
  | nil => simp [recSet, recGet]
  | cons hd rest ih =>
    obtain ⟨k', v'⟩ := hd
    by_cases h : k' = k
    · subst h; simp [recSet, recGet]
    · simp [recSet, recGet, h, ih]

theorem recGet_recSet_ne {α : Type} (r : List (String × α)) (k q : String) (v : α)
    (h : k ≠ q) : recGet (recSet r k v) q = recGet r q := by
  induction r with
  | nil => simp [recSet, recGet, h]
  | cons hd rest ih =>
    obtain ⟨k', v'⟩ := hd
    by_cases hk : k' = k
    · subst hk; simp [recSet, recGet, h]
    · simp [recSet, recGet, hk, ih]

theorem filter_ite {α : Type} (c : Prop) [Decidable c] (f : α → Bool)
    (l1 l2 : List α) :
    (if c then l1 else l2).filter f = if c then l1.filter f else l2.filter f := by
  split_ifs <;> rfl

theorem copyAuxRun_snd (files : List String) (ok : String → Bool) :
    (copyAuxRun files ok).2 = files.all ok := by
  induction files with
  | nil => rfl
  | cons f rest ih => by_cases h : ok f <;> simp [copyAuxRun, h, ih]

theorem copyAuxRun_no_cacheWrite (files : List String) (ok : String → Bool) :
    ((copyAuxRun files ok).1).filter isCacheWrite = [] := by
  induction files with
  | nil => rfl
  | cons f rest ih => by_cases h : ok f <;> simp [copyAuxRun, h, isCacheWrite, ih]

theorem syncMonitorFiles_eq_map (m : MonitorDetails) (t : FsTimes) :
    syncMonitorFiles m t = m.CopyFiles.map Action.syncCopy := by
  have key : ∀ (l : List String) (acc : List Action),
      l.foldl (fun acc file =>
        acc ++ (if jsFreshDateObjectsDiffer then [Action.syncCopy file] else [])) acc
        = acc ++ l.map Action.syncCopy := by
    intro l
    induction l with
    | nil => intro acc; simp
    | cons f rest ih =>
      intro acc
      simp only [jsFreshDateObjectsDiffer, if_true, List.foldl_cons] at ih ⊢
      rw [ih (acc ++ [Action.syncCopy f])]
      simp
  simpa using key m.CopyFiles []

theorem foldl_append_eq_flatten {α : Type} (ls : List (List α)) (acc : List α) :
    ls.foldl (fun a b => a ++ b) acc = acc ++ ls.flatten := by
  induction ls generalizing acc with
  | nil => simp
  | cons h t ih => simp [ih, List.append_assoc]

theorem flatten_map_filter {α : Type} (p : α → Bool) (ls : List (List α)) :
    (ls.map (fun l => l.filter p)).flatten = ls.flatten.filter p := by
  induction ls with
  | nil => rfl
  | cons h t ih =>
    rw [List.map_cons, List.flatten_cons, List.flatten_cons, List.filter_append, ih]

theorem gcs_eq_of_fst_false {r : StatusResult} {n : String}
    (h : (GetContainerStatus r n).1 = false) :
    GetContainerStatus r n = (false, false) := by
  unfold GetContainerStatus at h ⊢
  cases hs : r.success with
  | false => simp [hs]
  | true =>
    simp only [hs, Bool.not_true, Bool.false_eq_true, if_false] at h ⊢
    cases hg : recGet r.statuses n with
    | none => simp [hg]
    | some b => simp [hg] at h ⊢

theorem waitAux_polls_le (source : Nat → StatusResult) (name : String)
    (desired : Bool) (a : Nat) :
    ∀ i, (WaitForStatusAux source name desired a i).polls ≤ a := by
  induction a with
  | zero => intro i; simp [WaitForStatusAux]
  | succ n ih =>
    intro i
    by_cases h : (GetContainerStatus (source i) name).2 = desired
    · simp [WaitForStatusAux, h]
    · simp only [WaitForStatusAux, h, if_false]
      exact Nat.succ_le_succ (ih (i + 1))

theorem waitAux_never (source : Nat → StatusResult) (name : String)
    (desired : Bool) (a : Nat) :
    ∀ i, (∀ k, k < a → (GetContainerStatus (source (i + k)) name).2 ≠ desired) →
      WaitForStatusAux source name desired a i = ⟨false, a, 5000 * a⟩ := by
  induction a with
  | zero => intro i _; simp [WaitForStatusAux]
  | succ n ih =>
    intro i h
    have h0 : (GetContainerStatus (source i) name).2 ≠ desired := by
      simpa using h 0 (Nat.succ_pos n)
    have hrest : ∀ k, k < n →
        (GetContainerStatus (source (i + 1 + k)) name).2 ≠ desired := by
      intro k hk
      have heq : i + 1 + k = i + (k + 1) := by omega
      rw [heq]
      exact h (k + 1) (Nat.succ_lt_succ hk)
    simp only [WaitForStatusAux, h0, if_false]
    rw [ih (i + 1) hrest]
    simp [Nat.mul_succ]

theorem waitAux_hit (source : Nat → StatusResult) (name : String)
    (desired : Bool) (a : Nat) :
    ∀ i k, k < a →
      (∀ j, j < k → (GetContainerStatus (source (i + j)) name).2 ≠ desired) →
      (GetContainerStatus (source (i + k)) name).2 = desired →
      WaitForStatusAux source name desired a i = ⟨true, k + 1, 5000 * k⟩ := by
  induction a with
  | zero => intro i k hk; exact absurd hk (Nat.not_lt_zero k)
  | succ n ih =>
    intro i k hk hprev hhit
    cases k with
    | zero =>
      have h0 : (GetContainerStatus (source i) name).2 = desired := by
        simpa using hhit
      simp [WaitForStatusAux, h0]
    | succ k' =>
      have h0 : (GetContainerStatus (source i) name).2 ≠ desired := by
        simpa using hprev 0 (Nat.succ_pos k')
      have hprev' : ∀ j, j < k' →
          (GetContainerStatus (source (i + 1 + j)) name).2 ≠ desired := by
        intro j hj
        have heq : i + 1 + j = i + (j + 1) := by omega
        rw [heq]
        exact hprev (j + 1) (Nat.succ_lt_succ hj)
      have hhit' : (GetContainerStatus (source (i + 1 + k')) name).2 = desired := by
        have heq : i + 1 + k' = i + (k' + 1) := by omega
        rw [heq]
        exact hhit
      simp only [WaitForStatusAux, h0, if_false]
      rw [ih (i + 1) k' (Nat.lt_of_succ_lt_succ hk) hprev' hhit']
      simp [Nat.mul_succ]

theorem insertRow_of_empty (H : List Char) (acc : List (String × Bool))
    (line : List Char) (h : rowService H line = "") :
    insertRow H acc line = acc := by
  simp [insertRow, h]

theorem insertRow_self (H : List Char) (acc : List (String × Bool))
    (line : List Char) (h : rowService H line ≠ "") :
    recGet (insertRow H acc line) (rowService H line) = some (rowUp H line) := by
  unfold insertRow
  rw [if_neg h]
  by_cases hi : rowImage H line = rowService H line
  · rw [hi]
    exact recGet_recSet_self _ _ _
  · rw [recGet_recSet_ne _ _ _ _ hi]
    by_cases hn : rowName H line = rowService H line
    · rw [hn]
      exact recGet_recSet_self _ _ _
    · rw [recGet_recSet_ne _ _ _ _ hn]
      exact recGet_recSet_self _ _ _

theorem insertRow_preserve (H : List Char) (acc : List (String × Bool))
    (line : List Char) (k : String)
    (hk : rowService H line ≠ "" →
      rowService H line ≠ k ∧ rowName H line ≠ k ∧ rowImage H line ≠ k) :
    recGet (insertRow H acc line) k = recGet acc k := by
  by_cases hs : rowService H line = ""
  · rw [insertRow_of_empty H acc line hs]
  · obtain ⟨h1, h2, h3⟩ := hk hs
    unfold insertRow
    rw [if_neg hs, recGet_recSet_ne _ _ _ _ h3, recGet_recSet_ne _ _ _ _ h2,
      recGet_recSet_ne _ _ _ _ h1]

theorem foldl_insertRow_preserve (H : List Char) (k : String) :
    ∀ (rows : List (List Char)) (acc : List (String × Bool)),
      (∀ l ∈ rows, rowService H l ≠ "" →
        rowService H l ≠ k ∧ rowName H l ≠ k ∧ rowImage H l ≠ k) →
      recGet (rows.foldl (insertRow H) acc) k = recGet acc k := by
  intro rows
  induction rows with
  | nil => intro acc _; rfl
  | cons l rest ih =>
    intro acc hall
    rw [List.foldl_cons, ih _ (fun x hx => hall x (List.mem_cons_of_mem _ hx)),
      insertRow_preserve H acc l k (hall l (List.mem_cons_self _ _))]

theorem applyDefaults_preserve (k : String) (v : Bool) :
    ∀ (services : List String) (acc : List (String × Bool)),
      recGet acc k = some v → recGet (applyDefaults services acc) k = some v := by
  intro services
  induction services with
  | nil => intro acc h; exact h
  | cons s rest ih =>
    intro acc h
    unfold applyDefaults
    rw [List.foldl_cons]
    by_cases hh : recHas acc s = true
    · rw [if_pos hh]
      exact ih acc h
    · rw [if_neg (by simp [hh])]
      refine ih _ ?_
      by_cases hsk : s = k
      · subst hsk
        exact absurd (by simp [recHas, h]) hh
      · rw [recGet_recSet_ne _ _ _ _ hsk]
        exact h

theorem applyDefaults_absent (k : String) :
    ∀ (services : List String) (acc : List (String × Bool)),
      recGet acc k = none → k ∈ services →
      recGet (applyDefaults services acc) k = some false := by
  intro services
  induction services with
  | nil => intro acc _ hk; exact absurd hk (List.not_mem_nil k)
  | cons s rest ih =>
    intro acc hnone hk
    unfold applyDefaults
    rw [List.foldl_cons]
    by_cases hsk : s = k
    · subst hsk
      have hh : recHas acc s = false := by simp [recHas, hnone]
      rw [if_neg (by simp [hh])]
      exact applyDefaults_preserve s false rest _ (recGet_recSet_self _ _ _)
    · have hk' : k ∈ rest := by
        rcases List.mem_cons.mp hk with h | h
        · exact absurd h.symm hsk
        · exact h
      by_cases hh : recHas acc s = true
      · rw [if_pos hh]
        exact ih acc hnone hk'
      · rw [if_neg (by simp [hh])]
        refine ih _ ?_ hk'
        rw [recGet_recSet_ne _ _ _ _ hsk]
        exact hnone

theorem foldl_insertRow_filter (H : List Char) :
    ∀ (rows : List (List Char)) (acc : List (String × Bool)),
      rows.foldl (insertRow H) acc
        = (rows.filter (fun l => !(rowService H l == ""))).foldl (insertRow H) acc := by
  intro rows
  induction rows with
  | nil => intro acc; rfl
  | cons l rest ih =>
    intro acc
    rw [List.foldl_cons]
    by_cases hs : rowService H l = ""
    · have hf : (l :: rest).filter (fun x => !(rowService H x == ""))
          = rest.filter (fun x => !(rowService H x == "")) := by
        simp [List.filter_cons, hs]
      rw [insertRow_of_empty H acc l hs, hf, ih]
    · have hf : (l :: rest).filter (fun x => !(rowService H x == ""))
          = l :: rest.filter (fun x => !(rowService H x == "")) := by
        simp [List.filter_cons, hs]
      rw [hf, List.foldl_cons, ih]

/-! ## Claim theorems -/

/-- Counterexample to claim C3 as stated: the loop of `GetStatuses` also
assigns `results[name]` and `results[image]`, so a later row whose NAME
column equals an earlier row's SERVICE column overwrites that service's
entry.  In `clashOut` the first row has SERVICE `alpha` and a STATUS slice
beginning with `Up`, yet the snapshot reports `alpha` as down, because the
second row (status `Exited`) has NAME `alpha`. -/
theorem c3_counterexample :
    rowService (hdr clashOut) clashRow1.data = "alpha" ∧
    rowUp (hdr clashOut) clashRow1.data = true ∧
    recGet (GetStatusesParse clashOut clashServices) "alpha" = some false := by
  decide

/-- Claim C3 (amended): in the parsed snapshot, a row whose SERVICE field is
nonempty is reported up exactly when the raw STATUS column slice of that row
starts with `Up`, provided no later row writes the same key through its own
SERVICE, NAME or IMAGE column (each parsed row also assigns its NAME and
IMAGE keys, later rows winning); rows with an empty SERVICE field contribute
no entry to the fold; and every statically known service that no row
mentions is present in the snapshot as down. -/
theorem c3_status_parsing (stdout : List Char) (services : List String) :
    (∀ pre line post,
      (jsSplit '\n' stdout).tail = pre ++ line :: post →
      rowService (hdr stdout) line ≠ "" →
      (∀ l ∈ post, rowService (hdr stdout) l ≠ "" →
        rowService (hdr stdout) l ≠ rowService (hdr stdout) line ∧
        rowName (hdr stdout) l ≠ rowService (hdr stdout) line ∧
        rowImage (hdr stdout) l ≠ rowService (hdr stdout) line) →
      recGet (GetStatusesParse stdout services) (rowService (hdr stdout) line)
        = some (rowUp (hdr stdout) line)) ∧
    (GetStatusesParse stdout services
      = applyDefaults services
          (((jsSplit '\n' stdout).tail.filter
            (fun l => !(rowService (hdr stdout) l == ""))).foldl
            (insertRow (hdr stdout)) [])) ∧
    (∀ s ∈ services,
      (∀ l ∈ (jsSplit '\n' stdout).tail, rowService (hdr stdout) l ≠ "" →
        s ≠ rowService (hdr stdout) l ∧ s ≠ rowName (hdr stdout) l ∧
        s ≠ rowImage (hdr stdout) l) →
      recGet (GetStatusesParse stdout services) s = some false) := by
  have hparse : GetStatusesParse stdout services
      = applyDefaults services
          ((jsSplit '\n' stdout).tail.foldl (insertRow (hdr stdout)) []) := rfl
  refine ⟨?_, ?_, ?_⟩
  · intro pre line post hrows hsvc hpost
    rw [hparse, hrows, List.foldl_append, List.foldl_cons]
    refine applyDefaults_preserve _ _ services _ ?_
    rw [foldl_insertRow_preserve (hdr stdout) _ post _ hpost]
    exact insertRow_self _ _ _ hsvc
  · rw [hparse, foldl_insertRow_filter]
  · intro s hs hnone
    rw [hparse]
    refine applyDefaults_absent s services _ ?_ hs
    rw [foldl_insertRow_preserve (hdr stdout) s _ [] ?_]
    · rfl
    · intro l hl hsl
      obtain ⟨h1, h2, h3⟩ := hnone l hl hsl
      exact ⟨h1.symm, h2.symm, h3.symm⟩

/-- Witness for C3 at the sample table: `alpha` (status `Up 3h`) is up,
`beta` (status `Exited`) is down, and the absent known service `gamma` is
down. -/
theorem c3_status_parsing_witness :
    recGet (GetStatusesParse sampleOut sampleServices) "alpha" = some true ∧
    recGet (GetStatusesParse sampleOut sampleServices) "beta" = some false ∧
    recGet (GetStatusesParse sampleOut sampleServices) "gamma" = some false := by
  have H := c3_status_parsing sampleOut sampleServices
  refine ⟨?_, ?_, ?_⟩
  · have h := H.1 [] sampleRow1.data [sampleRow2.data] (by decide) (by decide)
      (by decide)
    have hk : rowService (hdr sampleOut) sampleRow1.data = "alpha" := by decide
    have hu : rowUp (hdr sampleOut) sampleRow1.data = true := by decide
    rw [hk, hu] at h
    exact h
  · have h := H.1 [sampleRow1.data] sampleRow2.data [] (by decide) (by decide)
      (by decide)
    have hk : rowService (hdr sampleOut) sampleRow2.data = "beta" := by decide
    have hu : rowUp (hdr sampleOut) sampleRow2.data = false := by decide
    rw [hk, hu] at h
    exact h
  · exact H.2.2 "gamma" (by decide) (by decide)

/-- Claim C5: `WaitForStatus` performs at most `maxAttempts` polls; with zero
attempts it fails immediately without polling; it succeeds as soon as a poll
observes the desired up-state, having slept the fixed 5000 ms interval
between consecutive polls; and when no poll within the budget reports the
desired state it fails after exactly `maxAttempts` polls. -/
theorem c5_wait_for_status_bounded (source : Nat → StatusResult) (name : String)
    (desired : Bool) (attempts : Nat) :
    (WaitForStatusRun source name desired attempts).polls ≤ attempts ∧
    WaitForStatusRun source name desired 0 = ⟨false, 0, 0⟩ ∧
    (∀ i, i < attempts →
      (∀ j, j < i → (GetContainerStatus (source j) name).2 ≠ desired) →
      GetContainerStatus (source i) name = (true, desired) →
      WaitForStatusRun source name desired attempts = ⟨true, i + 1, 5000 * i⟩) ∧
    ((∀ i, i < attempts → (GetContainerStatus (source i) name).2 ≠ desired) →
      WaitForStatusRun source name desired attempts
        = ⟨false, attempts, 5000 * attempts⟩) := by
  refine ⟨waitAux_polls_le source name desired attempts 0, rfl, ?_, ?_⟩
  · intro i hi hprev hhit
    have hprev0 : ∀ j, j < i →
        (GetContainerStatus (source (0 + j)) name).2 ≠ desired := by
      intro j hj; simpa using hprev j hj
    have hhit0 : (GetContainerStatus (source (0 + i)) name).2 = desired := by
      simpa using congrArg Prod.snd hhit
    exact waitAux_hit source name desired attempts 0 i hi hprev0 hhit0
  · intro hnever
    have h0 : ∀ k, k < attempts →
        (GetContainerStatus (source (0 + k)) name).2 ≠ desired := by
      intro k hk; simpa using hnever k hk
    exact waitAux_never source name desired attempts 0 h0

/-- Witness for C5: a source that always answers `web` down makes a wait for
up-state true with three attempts fail after exactly three polls and three
5-second sleeps. -/
theorem c5_wait_for_status_bounded_witness :
    WaitForStatusRun neverUpSource "web" true 3 = ⟨false, 3, 15000⟩ := by
  have h := (c5_wait_for_status_bounded neverUpSource "web" true 3).2.2.2 ?_
  · exact h.trans (by decide)
  · intro i _
    show (GetContainerStatus (neverUpSource i) "web").2 ≠ true
    simp only [neverUpSource]
    decide

/-- Counterexample to claim C6 as stated: when the status query of a poll
fails, `GetContainerStatus` hands `WaitForStatus` the pair `(false, false)`,
and a wait for up-state false reports success on that very poll. -/
theorem c6_counterexample :
    (GetContainerStatus (failSource 0) "web").1 = false ∧
    (WaitForStatusRun failSource "web" false 3).result = true := by decide

/-- Claim C6 (amended): `WaitForStatus` compares only the reported up-state
with the desired state and ignores the success flag of the poll; a failed
status query reports up-state false, so a wait for up-state false succeeds
immediately on a poll whose status query failed. -/
theorem c6_failed_poll_counts_as_down (source : Nat → StatusResult)
    (name : String) (attempts : Nat) (h : 0 < attempts)
    (hfail : (GetContainerStatus (source 0) name).1 = false) :
    WaitForStatusRun source name false attempts = ⟨true, 1, 0⟩ := by
  obtain ⟨n, rfl⟩ : ∃ n, attempts = n + 1 := ⟨attempts - 1, by omega⟩
  have h2 : (GetContainerStatus (source 0) name).2 = false := by
    rw [gcs_eq_of_fst_false hfail]
  unfold WaitForStatusRun
  simp [WaitForStatusAux, h2]

/-- Witness for the amended C6 at a concrete always-failing source. -/
theorem c6_failed_poll_counts_as_down_witness :
    WaitForStatusRun failSource "web" false 3 = ⟨true, 1, 0⟩ :=
  c6_failed_poll_counts_as_down failSource "web" 3 (by decide) (by decide)

/-- Claim C8 (code bug): the resync guard of `syncMonitorFiles` compares two
freshly created `Date` objects by reference, so the copy fires even when the
modification times of the source copy and the active copy are equal. -/
theorem c8_sync_always_copies :
    equalTimes.sourceMtime "config.yml" = equalTimes.destMtime "config.yml" ∧
    syncMonitorFiles c8m equalTimes = [Action.syncCopy "config.yml"] :=
  ⟨rfl, rfl⟩

/-- Claim C10: when the single up-front status query of a monitor cycle
fails, the cycle returns before evaluating any profile: no actions are
performed and the Version Cache is unchanged. -/
theorem c10_snapshot_failure_skips_cycle (monitors : List MonitorDetails)
    (isInit : Bool) (autostart : List String) (up : List (String × Bool))
    (cache : List (String × String)) (env : String → ProfileEnv) :
    runMonitor monitors isInit autostart false up cache env = (cache, []) := rfl

/-- Counterexample to claim C1 as stated: with `builds/fp1` already present,
the fetch is skipped but the promote steps are skipped as well - the trace
holds only the cache write, with no rebuild of `current/` and no auxiliary
copy. -/
theorem c1_counterexample :
    downloadAndExtract c1m "u" "fp1" false [] [] c1env
      = ([("p1", "fp1")], [Action.setCache "p1" "fp1"]) ∧
    Action.copyBuildToCurrent "fp1" ∉
      (downloadAndExtract c1m "u" "fp1" false [] [] c1env).2 ∧
    Action.removeCurrent ∉ (downloadAndExtract c1m "u" "fp1" false [] [] c1env).2 ∧
    Action.copyAux "aux.yml" ∉
      (downloadAndExtract c1m "u" "fp1" false [] [] c1env).2 := by decide

/-- Counterexample to claim C2 as stated: in the fetch-skip branch the cache
entry is set to the new fingerprint although no promotion step (move,
replacement of `current/`, auxiliary copy) was performed, let alone
succeeded. -/
theorem c2_counterexample :
    (downloadAndExtract c2m "u" "v2" false [] [] c2env).1 = [("p2", "v2")] ∧
    Action.renameToBuild "v2" ∉
      (downloadAndExtract c2m "u" "v2" false [] [] c2env).2 ∧
    Action.copyBuildToCurrent "v2" ∉
      (downloadAndExtract c2m "u" "v2" false [] [] c2env).2 ∧
    Action.download "u" ∉
      (downloadAndExtract c2m "u" "v2" false [] [] c2env).2 := by decide

/-- Claim C1 (amended): when `builds/<fingerprint>` already exists the code
skips the network fetch and also every promote step: it records the
fingerprint in the Version Cache and, when auto-restart or initial-run
autostart applies, restarts the profile; `current/` is never rebuilt and no
auxiliary file is copied in that call. -/
theorem c1_build_exists_skips_promotion (m : MonitorDetails) (url fp : String)
    (isInit : Bool) (autostart : List String) (cache : List (String × String))
    (env : FetchEnv) (hb : env.buildExists = true) :
    downloadAndExtract m url fp isInit autostart cache env
      = (recSet cache m.Profile fp,
         (if env.buildsExists then [] else [Action.mkdirBuilds]) ++
           [Action.setCache m.Profile fp] ++
           (if m.AutoRestart || (isInit && autostart.contains m.Profile) then
             [Action.restart m.Profile] else [])) ∧
    ((if env.buildsExists then ([] : List Action) else [Action.mkdirBuilds]) ++
        [Action.setCache m.Profile fp] ++
        (if m.AutoRestart || (isInit && autostart.contains m.Profile) then
          [Action.restart m.Profile] else [])).filter isPromoteStep = [] := by
  constructor
  · simp [downloadAndExtract, hb]
  · simp only [List.filter_append, filter_ite]
    split_ifs <;> rfl

/-- Witness for the amended C1: a pre-existing build under autostart on the
initial run yields exactly a cache write plus a restart. -/
theorem c1_build_exists_skips_promotion_witness :
    downloadAndExtract c1m "u2" "fp2" true ["p1"] [("p1", "old")] c1env
      = ([("p1", "fp2")], [Action.setCache "p1" "fp2", Action.restart "p1"]) :=
  ((c1_build_exists_skips_promotion c1m "u2" "fp2" true ["p1"] [("p1", "old")]
      c1env rfl).1).trans (by decide)

set_option maxHeartbeats 2000000 in
/-- Claim C2 (amended): in a staged promotion (the build directory does not
already exist), the Version Cache entry is written exactly when every
fallible step - download, stream write, extraction, move, replacement of
`current/`, auxiliary copies - succeeds, and a failure of any step leaves
the cache unchanged so the next cycle retries; when the build directory
already exists the cache is written without the promote steps (see the
counterexample). -/
theorem c2_cache_updated_only_on_success (m : MonitorDetails) (url fp : String)
    (isInit : Bool) (autostart : List String) (cache : List (String × String))
    (env : FetchEnv) (hnb : env.buildExists = false) :
    ((downloadAndExtract m url fp isInit autostart cache env).1
      = if fetchAllOk m env then recSet cache m.Profile fp else cache) ∧
    ((downloadAndExtract m url fp isInit autostart cache env).2.filter isCacheWrite
      = if fetchAllOk m env then [Action.setCache m.Profile fp] else []) := by
  obtain ⟨be, bx, te, ce, rq, hs, so, eo, ro, rco, cco, cfo⟩ := env
  simp only at hnb
  subst hnb
  unfold downloadAndExtract fetchAllOk
  simp only [Bool.false_eq_true, if_false]
  split_ifs with h1 h2 h3 h4 h5 h6 h7 h8 <;>
    simp_all [List.filter_append, filter_ite, isCacheWrite, copyAuxRun_snd,
      copyAuxRun_no_cacheWrite]
  all_goals
    obtain ⟨x, hx, hfx⟩ := ‹∃ x ∈ m.CopyFiles, cfo x = false›
    have htx := ‹∀ x ∈ m.CopyFiles, cfo x = true› x hx
    simp [htx] at hfx

/-- Witness for the amended C2: an extraction failure leaves the cache
untouched. -/
theorem c2_cache_updated_only_on_success_witness :
    (downloadAndExtract c2m "u" "v2" false [] [("x", "y")] c2wEnv).1
      = [("x", "y")] :=
  ((c2_cache_updated_only_on_success c2m "u" "v2" false [] [("x", "y")] c2wEnv
      rfl).1).trans (by decide)

/-- Claim C4: the asset pipeline of the release monitor equals the
specification pipeline - keep the releases that are not prereleases unless
prereleases are allowed, flatten their assets in feed order, keep the assets
whose name matches the filter - and when the surviving list is nonempty the
resolved fingerprint is the first surviving asset's filename with its
extension stripped, paired with that asset's download URL. -/
theorem c4_release_asset_selection (m : MonitorDetails) (releases : List Release) :
    releaseResults m releases = specSurvivingAssets m releases ∧
    ∀ a rest, releaseResults m releases = a :: rest →
      resolveRelease m releases
        = some (stripExt a.name, a.browser_download_url) := by
  constructor
  · unfold releaseResults specSurvivingAssets
    rw [foldl_append_eq_flatten, List.nil_append, ← flatten_map_filter,
      List.map_map]
    rfl
  · intro a rest h
    unfold resolveRelease
    rw [h]

/-- Witness for C4 at the specification example: prerelease `a.zip` is
skipped, `c.txt` fails the filter, and the fingerprint derives from
`b.zip`. -/
theorem c4_release_asset_selection_witness :
    resolveRelease c4m c4releases = some ("b", "u2") :=
  ((c4_release_asset_selection c4m c4releases).2 ⟨"b.zip", "u2"⟩ []
      (by decide)).trans (by decide)

/-- Claim C7: with a successful release request, when no asset survives the
prerelease and name filters (in particular when the feed is empty), the
release monitor only logs (the caught TypeError from `results[0].name`): the
cache is untouched and no download or restart happens, so the check is
retried next cycle. -/
theorem c7_no_matching_asset_skips (m : MonitorDetails) (isInit : Bool)
    (autostart : List String) (up : List (String × Bool))
    (cache : List (String × String)) (renv : ReleaseEnv) (fenv : FetchEnv)
    (t : FsTimes) :
    (renv.releases = [] → releaseResults m renv.releases = []) ∧
    (renv.requestOk = true → renv.status = 200 →
      releaseResults m renv.releases = [] →
      runReleaseMonitor m isInit autostart up cache renv fenv t
        = (cache, [Action.logError])) := by
  constructor
  · intro h
    rw [h]
    rfl
  · intro hok h200 hres
    unfold runReleaseMonitor
    simp [hok, h200, hres, jsArrayFalsy]

/-- Witness for C7: an empty feed leaves the cache empty and produces only
the error log. -/
theorem c7_no_matching_asset_skips_witness :
    runReleaseMonitor c7m false [] [] [] c7renv dummyFetchEnv equalTimes
      = ([], [Action.logError]) := by
  have h := c7_no_matching_asset_skips c7m false [] [] [] c7renv dummyFetchEnv
    equalTimes
  exact h.2 rfl rfl (h.1 rfl)

/-- Claim C9: on a cache hit (resolved remote fingerprint equals the cached
fingerprint) both monitors resynchronize the auxiliary files and then
reconcile liveness; the reconciliation restarts the profile exactly when the
monitored-container list is nonempty and some monitored container is not up
in the shared snapshot; the cache is unchanged and no fetch or promote step
occurs. -/
theorem c9_cache_hit_resync_and_reconcile (m : MonitorDetails) (isInit : Bool)
    (autostart : List String) (up : List (String × Bool))
    (cache : List (String × String)) (renv : RepoEnv) (relenv : ReleaseEnv)
    (fenv : FetchEnv) (t : FsTimes) :
    (renv.requestOk = true → recGet cache m.Profile = some renv.sha →
      runRepoMonitor m isInit autostart up cache renv fenv t
        = (cache, syncMonitorFiles m t ++ checkMonitorStatus m up)) ∧
    (∀ a rest, relenv.requestOk = true → relenv.status = 200 →
      releaseResults m relenv.releases = a :: rest →
      recGet cache m.Profile = some (stripExt a.name) →
      runReleaseMonitor m isInit autostart up cache relenv fenv t
        = (cache, syncMonitorFiles m t ++ checkMonitorStatus m up)) ∧
    (checkMonitorStatus m up
      = if m.MonitorContainers = [] then []
        else if m.MonitorContainers.all
            (fun x => recHas up x && (recGet up x == some true)) then []
        else [Action.restart m.Profile]) ∧
    ((syncMonitorFiles m t ++ checkMonitorStatus m up).filter isPromoteStep
      = []) := by
  have hcheck : checkMonitorStatus m up
      = if m.MonitorContainers = [] then []
        else if m.MonitorContainers.all
            (fun x => recHas up x && (recGet up x == some true)) then []
        else [Action.restart m.Profile] := by
    unfold checkMonitorStatus
    by_cases hlen : m.MonitorContainers.length = 0
    · simp [hlen, List.length_eq_zero.mp hlen]
    · have hne : ¬m.MonitorContainers = [] := by
        intro h
        exact hlen (by simp [h])
      rw [if_neg hlen, if_neg hne]
      by_cases hall : m.MonitorContainers.all
          (fun x => recHas up x && (recGet up x == some true)) = true
      · have hcp : m.MonitorContainers.countP
            (fun x => recHas up x && (recGet up x == some true))
              = m.MonitorContainers.length := by
          refine List.countP_eq_length.mpr ?_
          intro x hx
          exact (List.all_eq_true.mp hall) x hx
        simp [hcp, hall]
      · have hcp : m.MonitorContainers.countP
            (fun x => recHas up x && (recGet up x == some true))
              ≠ m.MonitorContainers.length := by
          intro hcp
          exact hall (List.all_eq_true.mpr (List.countP_eq_length.mp hcp))
        simp [hcp, hall]
  refine ⟨?_, ?_, hcheck, ?_⟩
  · intro hok hc
    unfold runRepoMonitor
    simp [hok, hc, recHas]
  · intro a rest hok h200 hres hc
    unfold runReleaseMonitor
    simp [hok, h200, hres, jsArrayFalsy, hc, recHas]
  · rw [List.filter_append, syncMonitorFiles_eq_map, hcheck]
    have hsync : (m.CopyFiles.map Action.syncCopy).filter isPromoteStep = [] := by
      simp [List.filter_map, isPromoteStep, Function.comp]
    have hchk : (if m.MonitorContainers = [] then ([] : List Action)
        else if m.MonitorContainers.all
            (fun x => recHas up x && (recGet up x == some true)) then []
        else [Action.restart m.Profile]).filter isPromoteStep = [] := by
      split_ifs <;> rfl
    simp [hsync, hchk]
    intro a _ _ _ _ ha
    subst ha
    rfl

/-- Witness for C9: with the fingerprint already cached, `web` up and `db`
absent from the snapshot, the repo monitor resyncs the auxiliary file and
restarts the profile, leaving the cache unchanged. -/
theorem c9_cache_hit_resync_and_reconcile_witness :
    runRepoMonitor c9m false [] c9up c9cache c9renv dummyFetchEnv equalTimes
      = (c9cache, [Action.syncCopy "cfg", Action.restart "p9"]) :=
  ((c9_cache_hit_resync_and_reconcile c9m false [] c9up c9cache c9renv
      ⟨true, 200, []⟩ dummyFetchEnv equalTimes).1 rfl (by decide)).trans
    (by decide)

end DockerManager
